import Mathlib

/-!
Shallow embedding of the MQTT telemetry agent core
(microcontroller/src: CircularBuffer.cpp, SchemaValidator.cpp,
StorageManager.cpp, MqttTelemetry.cpp) together with theorems checking the
natural-language specification against the code.

Modelling conventions, used throughout:
* C strings and byte buffers are modelled as `List Char` (one `Char` per
  byte; the embedded code treats payload bytes as text).  NUL terminators
  are implicit: a list models the bytes before the terminator.
* Machine counters (`uint32_t`, `size_t`, `unsigned long`) are modelled as
  `Nat`; none of the verified claims involves wrap-around behaviour.
* FreeRTOS mutex acquisitions (`xSemaphoreTake`) are modelled as succeeding;
  the claims under scrutiny explicitly assume the mutexes are acquired.
* External effects (ArduinoJson deserialization, SD card open/write
  success, wall-clock and millisecond clocks) enter as explicit parameters
  of the modelled operations, so every operation is a pure function of its
  state, its inputs and those oracles.
* `float` schema bounds are modelled as `Option ℚ` (`none` standing for the
  missing bound, i.e. -INFINITY / +INFINITY defaults); the claims settled
  here do not depend on IEEE rounding.
-/

/-! ## Circular buffer (CircularBuffer.h / CircularBuffer.cpp) -/

/-- One buffered record (struct BufferedMessage): topic capped at 127 bytes,
payload capped at 1023 bytes, both NUL-terminated in the source. -/
structure BufferedMessage where
  topic : List Char
  payload : List Char
  payloadLength : Nat
  timestamp : Nat
deriving DecidableEq

instance : Inhabited BufferedMessage := ⟨⟨[], [], 0, 0⟩⟩

/-- CircularBuffer state: the backing array (cells outside `[0, maxCapacity)`
are never read), `head` (next write), `tail` (next read), `count`
(occupancy) and the fixed capacity. -/
structure CircularBuffer where
  arr : Nat → BufferedMessage
  head : Nat
  tail : Nat
  count : Nat
  maxCapacity : Nat

/-- CircularBuffer::isEmpty: `count == 0`. -/
def CircularBuffer.isEmpty (cb : CircularBuffer) : Bool := cb.count = 0

/-- CircularBuffer::isFull: `count >= maxCapacity`. -/
def CircularBuffer.isFull (cb : CircularBuffer) : Bool := cb.maxCapacity ≤ cb.count

/-- The record stored by CircularBuffer::push: topic truncated by
`strncpy(msg.topic, topic, 127)`, payload truncated to
`copyLen = min(length, 1023)` bytes and NUL-terminated, timestamp from
`millis()` (passed here as `now`). -/
def mkMessage (topic payload : List Char) (now : Nat) : BufferedMessage :=
  { topic := topic.take 127
    payload := payload.take 1023
    payloadLength := min payload.length 1023
    timestamp := now }

/-- CircularBuffer::push: returns false and changes nothing if full,
otherwise writes the new record at `head`, advances `head` modulo the
capacity and increments `count`. -/
def CircularBuffer.push (cb : CircularBuffer) (topic payload : List Char) (now : Nat) :
    Bool × CircularBuffer :=
  if cb.isFull then (false, cb)
  else
    (true,
      { cb with
        arr := fun i => if i = cb.head then mkMessage topic payload now else cb.arr i
        head := (cb.head + 1) % cb.maxCapacity
        count := cb.count + 1 })

/-- CircularBuffer::pop: copies the oldest record out and advances `tail`;
`none` if empty. -/
def CircularBuffer.pop (cb : CircularBuffer) : Option BufferedMessage × CircularBuffer :=
  if cb.isEmpty then (none, cb)
  else
    (some (cb.arr cb.tail),
      { cb with tail := (cb.tail + 1) % cb.maxCapacity, count := cb.count - 1 })

/-- CircularBuffer::removeOldest: advances `tail` if non-empty, silently
returns if empty. -/
def CircularBuffer.removeOldest (cb : CircularBuffer) : CircularBuffer :=
  if cb.isEmpty then cb
  else { cb with tail := (cb.tail + 1) % cb.maxCapacity, count := cb.count - 1 }

/-- CircularBuffer::clear: resets indices and count. -/
def CircularBuffer.clear (cb : CircularBuffer) : CircularBuffer :=
  { cb with head := 0, tail := 0, count := 0 }

/-- The logical FIFO contents of the buffer, oldest first: the `count`
records starting at `tail`, wrapping modulo the capacity. -/
def bufContents (cb : CircularBuffer) : List BufferedMessage :=
  (List.range cb.count).map fun i => cb.arr ((cb.tail + i) % cb.maxCapacity)

/-- Well-formedness of the circular-array representation, established by the
constructor and preserved by every operation: indices in range and `head`
sitting `count` slots after `tail`. -/
def bufWF (cb : CircularBuffer) : Prop :=
  1 ≤ cb.maxCapacity ∧ cb.tail < cb.maxCapacity ∧ cb.count ≤ cb.maxCapacity ∧
    cb.head = (cb.tail + cb.count) % cb.maxCapacity

/-- CircularBuffer::CircularBuffer(capacity): head = tail = count = 0. -/
def freshBuffer (capacity : Nat) : CircularBuffer :=
  { arr := fun _ => default, head := 0, tail := 0, count := 0, maxCapacity := capacity }

/-! ## Topic matching (SchemaValidator::topicMatches) -/

/-- The scan inside the '+' branch of SchemaValidator::topicMatches:
`while (*t && *t != '/') t++;` — drop topic bytes up to (not including) the
next '/' or the end of the topic. -/
def dropToSlash : List Char → List Char
  | [] => []
  | c :: t => if c = '/' then c :: t else dropToSlash t

/-- SchemaValidator::topicMatches, translated clause by clause: the C++ loop
runs while both strings are non-empty ('#' returns true immediately, '+'
skips the topic to the next '/', a literal byte must match exactly), and
when either string is exhausted the result is `*t == 0 && *p == 0`. -/
def SchemaValidator.topicMatches (topic pattern : List Char) : Bool :=
  match pattern, topic with
  | pc :: p, tc :: t =>
    if pc = '#' then true
    else if pc = '+' then SchemaValidator.topicMatches (dropToSlash (tc :: t)) p
    else if tc = pc then SchemaValidator.topicMatches t p
    else false
  | [], t => t.isEmpty
  | _ :: _, [] => false

/-- The topic-matching relation exactly as the specification sentence and
claim C2 state it (pattern-directed reading): literal bytes match exactly,
'+' consumes input up to the next '/', '#' matches ALL remaining input —
including the empty remainder — and must be the last pattern token, and a
match requires both sides exhausted simultaneously (or '#' consuming the
remainder).  This definition follows the claim's words, for comparison with
the source-derived `SchemaValidator.topicMatches`. -/
def claimTopicMatches (topic pattern : List Char) : Bool :=
  match pattern, topic with
  | [], t => t.isEmpty
  | pc :: p, t =>
    if pc = '#' then p.isEmpty
    else if pc = '+' then claimTopicMatches (dropToSlash t) p
    else
      match t with
      | [] => false
      | tc :: t1 => pc = tc && claimTopicMatches t1 p

/-- The amended reading of claim C2, matching the code: as claimed, except
that '#' matches only a NON-EMPTY topic remainder (a topic exhausted when
'#' is reached never matches), and the code does not require '#' to be the
last pattern token — it accepts at the first '#' found while topic input
remains, whatever follows in the pattern. -/
def claimTopicMatchesAmended (topic pattern : List Char) : Bool :=
  match pattern, topic with
  | [], t => t.isEmpty
  | _ :: _, [] => false
  | pc :: p, tc :: t =>
    if pc = '#' then true
    else if pc = '+' then claimTopicMatchesAmended (dropToSlash (tc :: t)) p
    else pc = tc && claimTopicMatchesAmended t p

/-! ## JSON documents (external ArduinoJson library, modelled) -/

/-- A parsed JSON document, standing for an ArduinoJson `JsonDocument` /
`JsonVariant`.  Numbers keep the integer/decimal distinction that
`is<int>` vs `is<float>` observes; decimal values are modelled as
rationals. -/
inductive Json where
  | jnull : Json
  | jbool : Bool → Json
  | jint : Int → Json
  | jnum : ℚ → Json
  | jstr : List Char → Json
  | jarr : List Json → Json
  | jobj : List (List Char × Json) → Json

/-- Key lookup in a JSON object's member list (first match wins). -/
def jlookup : List (List Char × Json) → List Char → Option Json
  | [], _ => none
  | (k, v) :: rest, key => if k = key then some v else jlookup rest key

/-- `doc[key]` combined with `doc.containsKey(key)`: `some` iff the key is
present (on a non-object this is always `none`). -/
def jget (j : Json) (key : List Char) : Option Json :=
  match j with
  | Json.jobj members => jlookup members key
  | _ => none

/-- `as<const char*>` for values already known to be strings; non-strings
yield the empty string (the embedding never relies on this default on a
claim-relevant path). -/
def asStringD : Json → List Char
  | Json.jstr s => s
  | _ => []

/-- `as<JsonArray>`: a non-array converts to the null array, which has
size 0. -/
def jarrOfJson : Json → List Json
  | Json.jarr xs => xs
  | _ => []

/-- `as<float>` on a value that passed the numeric type check. -/
def asFloat : Json → ℚ
  | Json.jint n => (n : ℚ)
  | Json.jnum q => q
  | _ => 0

/-! ## Schema validator (SchemaValidator.h / SchemaValidator.cpp) -/

/-- ValidationResult enum. -/
inductive ValidationResult where
  | ok : ValidationResult
  | errMissingField : ValidationResult
  | errTypeMismatch : ValidationResult
  | errOutOfRange : ValidationResult
  | errPatternMismatch : ValidationResult
  | errUnknownField : ValidationResult
  | errParseFailed : ValidationResult
deriving DecidableEq

/-- struct FieldSchema.  `minValue`/`maxValue` are `none` when the schema
blob omitted them (the source stores -INFINITY / +INFINITY floats). -/
structure FieldSchema where
  name : List Char
  type : List Char
  required : Bool
  autoFill : Bool
  minValue : Option ℚ
  maxValue : Option ℚ
  pattern : List Char
deriving DecidableEq

/-- SchemaValidator state.  The source keeps `fields` (a heap array) and
`fieldCount` as separate members; both are modelled separately because a
failed re-load can change one without the other.  The `errorMessage`
buffer is not modelled (it is a diagnostic string only). -/
structure SchemaValidator where
  fields : List FieldSchema
  fieldCount : Nat
  topicPattern : List Char
  schemaName : List Char
  enabled : Bool
  loaded : Bool
deriving DecidableEq

/-- SchemaValidator::SchemaValidator(): no fields, enabled, not loaded. -/
def freshValidator : SchemaValidator :=
  { fields := [], fieldCount := 0, topicPattern := [], schemaName := []
    enabled := true, loaded := false }

/-- Parsing of one entry of the `fields` array (the loop body of
SchemaValidator::parseSchema): defaults "" / "string" / false, and the
optional `validation` sub-object supplying min, max and pattern. -/
def parseField (j : Json) : FieldSchema :=
  { name := (match jget j "name".data with
      | some v => asStringD v
      | none => []).take 63
    type := (match jget j "type".data with
      | some v => asStringD v
      | none => "string".data).take 31
    required := (match jget j "required".data with
      | some (Json.jbool b) => b
      | _ => false)
    autoFill := (match jget j "auto_fill".data with
      | some (Json.jbool b) => b
      | _ => false)
    minValue := (match jget j "validation".data with
      | some v =>
        (match jget v "min".data with
          | some (Json.jint n) => some (n : ℚ)
          | some (Json.jnum q) => some q
          | _ => none)
      | none => none)
    maxValue := (match jget j "validation".data with
      | some v =>
        (match jget v "max".data with
          | some (Json.jint n) => some (n : ℚ)
          | some (Json.jnum q) => some q
          | _ => none)
      | none => none)
    pattern := (match jget j "validation".data with
      | some v =>
        (match jget v "pattern".data with
          | some (Json.jstr s) => s.take 127
          | _ => [])
      | none => []) }

/-- SchemaValidator::parseSchema, statement by statement: `schemaName` and
`topicPattern` are overwritten as soon as the corresponding keys exist,
`fieldCount` is overwritten from the array size BEFORE the emptiness check,
and only after all checks pass are `fields` replaced and `loaded` set. -/
def SchemaValidator.parseSchema (v : SchemaValidator) (doc : Json) :
    Bool × SchemaValidator :=
  let v1 := match jget doc "name".data with
    | some nv => { v with schemaName := (asStringD nv).take 63 }
    | none => v
  let v2 := match jget doc "topic_pattern".data with
    | some tv => { v1 with topicPattern := (asStringD tv).take 127 }
    | none => v1
  match jget doc "fields".data with
  | none => (false, v2)
  | some fv =>
    let fieldsArray := jarrOfJson fv
    let v3 := { v2 with fieldCount := fieldsArray.length }
    if fieldsArray.length = 0 then (false, v3)
    else (true, { v3 with fields := fieldsArray.map parseField, loaded := true })

/-- SchemaValidator::loadSchemaFromJson: `parsed` is the result of the
ArduinoJson `deserializeJson` call (`none` = DeserializationError); on a
parse error only the (unmodelled) error message changes. -/
def SchemaValidator.loadSchemaFromJson (v : SchemaValidator) (parsed : Option Json) :
    Bool × SchemaValidator :=
  match parsed with
  | none => (false, v)
  | some doc => v.parseSchema doc

/-- SchemaValidator::validateType per §4.2.1: unknown type strings accept
any value. -/
def SchemaValidator.validateType (value : Json) (ty : List Char) : Bool :=
  if ty = "string".data then (match value with | Json.jstr _ => true | _ => false)
  else if ty = "integer".data then (match value with | Json.jint _ => true | _ => false)
  else if ty = "float".data ∨ ty = "double".data then
    (match value with | Json.jint _ => true | Json.jnum _ => true | _ => false)
  else if ty = "boolean".data then (match value with | Json.jbool _ => true | _ => false)
  else if ty = "array".data then (match value with | Json.jarr _ => true | _ => false)
  else if ty = "object".data then (match value with | Json.jobj _ => true | _ => false)
  else true

/-- SchemaValidator::matchesPattern: substring containment via strstr. -/
def startsWithChars : List Char → List Char → Bool
  | _, [] => true
  | [], _ :: _ => false
  | c :: t, d :: u => c = d && startsWithChars t u

/-- strstr(value, pattern) != nullptr. -/
def containsSubstring : List Char → List Char → Bool
  | [], needle => startsWithChars [] needle
  | c :: t, needle => startsWithChars (c :: t) needle || containsSubstring t needle

/-- `numValue < schema.minValue` with a missing bound meaning -INFINITY. -/
def belowMin (q : ℚ) : Option ℚ → Bool
  | some lo => decide (q < lo)
  | none => false

/-- `numValue > schema.maxValue` with a missing bound meaning +INFINITY. -/
def aboveMax (q : ℚ) : Option ℚ → Bool
  | some hi => decide (hi < q)
  | none => false

/-- The numeric-type test of SchemaValidator::validateField. -/
def isNumericType (ty : List Char) : Bool :=
  ty = "integer".data || ty = "float".data || ty = "double".data

/-- SchemaValidator::validateField: type check, then numeric range check
for integer/float/double, then substring pattern check for strings. -/
def SchemaValidator.validateField (value : Json) (fs : FieldSchema) : ValidationResult :=
  if SchemaValidator.validateType value fs.type = false then
    ValidationResult.errTypeMismatch
  else if isNumericType fs.type &&
      (belowMin (asFloat value) fs.minValue || aboveMax (asFloat value) fs.maxValue) then
    ValidationResult.errOutOfRange
  else if fs.type = "string".data ∧ fs.pattern ≠ [] ∧
      containsSubstring (asStringD value) fs.pattern = false then
    ValidationResult.errPatternMismatch
  else ValidationResult.ok

/-- The field loop of SchemaValidator::validate(topic, JsonDocument&): in
declaration order, an absent key is an error exactly when `required` and
not `auto_fill`; a present key goes through validateField and the first
failure is returned. -/
def SchemaValidator.validateFields (doc : Json) : List FieldSchema → ValidationResult
  | [] => ValidationResult.ok
  | fs :: rest =>
    match jget doc fs.name with
    | none =>
      if fs.required ∧ ¬ fs.autoFill then ValidationResult.errMissingField
      else SchemaValidator.validateFields doc rest
    | some value =>
      let r := SchemaValidator.validateField value fs
      if r ≠ ValidationResult.ok then r else SchemaValidator.validateFields doc rest

/-- SchemaValidator::validate(topic, JsonDocument&) (the overload at lines
138-164): OK when disabled or no schema loaded, otherwise the field loop
over the first `fieldCount` descriptors (`for i < fieldCount`). -/
def SchemaValidator.validateDoc (v : SchemaValidator) (doc : Json) : ValidationResult :=
  if ¬ v.enabled ∨ ¬ v.loaded then ValidationResult.ok
  else SchemaValidator.validateFields doc (v.fields.take v.fieldCount)

/-- SchemaValidator::validate(topic, payload) (the string overload):
disabled/unloaded short-circuit, topic-pattern gate, then JSON parse
(`parsed` is the deserializeJson oracle) and the document validation. -/
def SchemaValidator.validateStr (v : SchemaValidator) (topic : List Char)
    (parsed : Option Json) : ValidationResult :=
  if ¬ v.enabled ∨ ¬ v.loaded then ValidationResult.ok
  else if v.topicPattern ≠ [] ∧ SchemaValidator.topicMatches topic v.topicPattern = false then
    ValidationResult.errParseFailed
  else
    match parsed with
    | none => ValidationResult.errParseFailed
    | some doc => v.validateDoc doc

/-! ## Storage manager (StorageManager.h / StorageManager.cpp) -/

/-- StorageStats (the unused compressionRatio member is omitted). -/
structure StorageStats where
  filesCreated : Nat
  writesCompleted : Nat
  writesFailed : Nat
  bytesWritten : Nat
deriving DecidableEq

/-- StorageManager state.  `sdPresent` models the `sd` pointer being set,
`filePresent` models `currentFile` converting to true (an open handle),
and `initDone` models the `initialized` member. -/
structure StorageManager where
  sdPresent : Bool
  filePresent : Bool
  basePath : List Char
  currentFileName : List Char
  currentFileSize : Nat
  maxFileSize : Nat
  initDone : Bool
  stats : StorageStats
  lastFlush : Nat
deriving DecidableEq

/-- StorageManager::StorageManager(): defaults from config.h
(base path "/telemetry", max file size 10 MiB); `begin` has not run. -/
def freshStorage : StorageManager :=
  { sdPresent := false, filePresent := false, basePath := "/telemetry".data
    currentFileName := [], currentFileSize := 0
    maxFileSize := 10 * 1024 * 1024, initDone := false
    stats := ⟨0, 0, 0, 0⟩, lastFlush := 0 }

/-- Outcomes of the external effects one storage call can perform:
`openOk` for `sd->open` in createNewFile, `devWriteOk` for
`currentFile.write` returning the full length, `nowMs` for `millis()`,
`wallSecs` for `time(nullptr)` (whole seconds). -/
structure WriteEnv where
  openOk : Bool
  devWriteOk : Bool
  nowMs : Nat
  wallSecs : Nat
deriving DecidableEq

/-- The civil-from-days conversion performed by `localtime` (UTC: config.h
sets NTP_TIMEZONE_OFFSET to 0); days counted from 1970-01-01, result
(year, month, day).  All intermediate subtractions are in order, so `Nat`
subtraction agrees with the mathematical value. -/
def civilOfDays (z0 : Nat) : Nat × Nat × Nat :=
  let z := z0 + 719468
  let era := z / 146097
  let doe := z % 146097
  let yoe := (doe - doe / 1460 + doe / 36524 - doe / 146096) / 365
  let y := yoe + era * 400
  let doy := doe - (365 * yoe + yoe / 4 - yoe / 100)
  let mp := (5 * doy + 2) / 153
  let d := doy - (153 * mp + 2) / 5 + 1
  let m := if mp < 10 then mp + 3 else mp - 9
  (if m ≤ 2 then y + 1 else y, m, d)

/-- The broken-down time (`struct tm`) fields used by generateFileName. -/
structure TmRec where
  tmYear : Nat
  tmMon : Nat
  tmMday : Nat
  tmHour : Nat
  tmMin : Nat
  tmSec : Nat
deriving DecidableEq

/-- `localtime(time(nullptr))` for an epoch-second count. -/
def tmOfSecs (secs : Nat) : TmRec :=
  let days := secs / 86400
  let rem := secs % 86400
  let c := civilOfDays days
  { tmYear := c.1 - 1900, tmMon := c.2.1 - 1, tmMday := c.2.2
    tmHour := rem / 3600, tmMin := rem % 3600 / 60, tmSec := rem % 60 }

/-- Zero-padded decimal rendering, as produced by the %0Nd conversions. -/
def padNum (width n : Nat) : List Char :=
  let ds := Nat.toDigits 10 n
  List.replicate (width - ds.length) '0' ++ ds

/-- StorageManager::generateFileName: `data_YYYYMMDD_HHMMSS.jsonl` built
solely from the wall-clock second (`time(nullptr)`); nothing else — in
particular no counter — enters the name. -/
def generateFileName (wallSecs : Nat) : List Char :=
  let t := tmOfSecs wallSecs
  "data_".data ++ padNum 4 (t.tmYear + 1900) ++ padNum 2 (t.tmMon + 1) ++
    padNum 2 t.tmMday ++ "_".data ++ padNum 2 t.tmHour ++ padNum 2 t.tmMin ++
    padNum 2 t.tmSec ++ ".jsonl".data

/-- The file name a rotation occurring at millisecond instant `nowMs`
produces: `time(nullptr)` has one-second resolution, so the rotation sees
`nowMs / 1000` as the wall-clock time. -/
def rotationFileName (nowMs : Nat) : List Char :=
  generateFileName (nowMs / 1000)

/-- stats.writesFailed++ . -/
def StorageManager.bumpFailed (s : StorageManager) : StorageManager :=
  { s with stats := { s.stats with writesFailed := s.stats.writesFailed + 1 } }

/-- StorageManager::flush at time `now`: no-op (returning false) without an
open file, otherwise commits and records `lastFlush = millis()`. -/
def StorageManager.flushAt (s : StorageManager) (now : Nat) : StorageManager :=
  if s.filePresent then { s with lastFlush := now } else s

/-- StorageManager::createNewFile: needs the sd pointer, renders
`basePath/<generated name>` (snprintf caps the path at 255 bytes), opens it
(`openOk` oracle); on success the size counter restarts at 0 and
filesCreated is bumped.  cleanupOldFiles is an empty TODO in the source. -/
def StorageManager.createNewFile (s : StorageManager) (env : WriteEnv) :
    Bool × StorageManager :=
  if s.sdPresent = false then (false, s)
  else
    let name := s.basePath ++ '/' :: generateFileName env.wallSecs
    let s1 := { s with currentFileName := name.take 255 }
    if env.openOk = false then (false, s1)
    else
      (true,
        { s1 with filePresent := true, currentFileSize := 0
                  stats := { s1.stats with filesCreated := s1.stats.filesCreated + 1 } })

/-- StorageManager::rotate: flush and close the current file, then create a
new one.  Note the close happens first: after a failed rotation no file is
open. -/
def StorageManager.rotate (s : StorageManager) (env : WriteEnv) :
    Bool × StorageManager :=
  let s1 := if s.filePresent then { s with filePresent := false } else s
  s1.createNewFile env

/-- Length of the formatted line
(open-brace)"topic":"<topic>","payload":<payload>,"timestamp":<ts>(close-brace)(newline):
10 + 12 + 13 + 2 fixed bytes plus the topic, the payload and the decimal
timestamp.  Topic and payload are modelled NUL-free (the buffer always
NUL-terminates what it hands over). -/
def lineLen (topic payload : List Char) (ts : Nat) : Nat :=
  10 + topic.length + 12 + payload.length + 13 + (Nat.toDigits 10 ts).length + 2

/-- The body of StorageManager::writeMessage after the rotation check:
snprintf bound check against the 2048-byte line buffer, the device write
(`devWriteOk` oracle), counter updates, and the periodic flush
(STORAGE_FLUSH_INTERVAL_MS = 5000). -/
def StorageManager.writeBody (s : StorageManager) (topic payload : List Char)
    (ts : Nat) (env : WriteEnv) : Bool × StorageManager :=
  let len := lineLen topic payload ts
  if len = 0 ∨ 2048 ≤ len then (false, s.bumpFailed)
  else if env.devWriteOk = false then (false, s.bumpFailed)
  else
    let s2 := { s with
      currentFileSize := s.currentFileSize + len
      stats := { s.stats with
        bytesWritten := s.stats.bytesWritten + len
        writesCompleted := s.stats.writesCompleted + 1 } }
    if 5000 < env.nowMs - s2.lastFlush then (true, s2.flushAt env.nowMs)
    else (true, s2)

/-- StorageManager::writeMessage: fail fast when not begun or no file is
open; rotate first when `currentFileSize >= maxFileSize` (a rotation
failure fails the write); then the write body. -/
def StorageManager.writeMessage (s : StorageManager) (topic payload : List Char)
    (ts : Nat) (env : WriteEnv) : Bool × StorageManager :=
  if s.initDone = false ∨ s.filePresent = false then (false, s)
  else if s.maxFileSize ≤ s.currentFileSize then
    match s.rotate env with
    | (true, s1) => s1.writeBody topic payload ts env
    | (false, s1) => (false, s1.bumpFailed)
  else s.writeBody topic payload ts env

/-- One writeMessage call of a run: its inputs plus the environment
oracles for that call. -/
structure WriteCall where
  topic : List Char
  payload : List Char
  ts : Nat
  env : WriteEnv

/-- A sequence of writeMessage calls against the sink. -/
def runWrites (s : StorageManager) (calls : List WriteCall) : StorageManager :=
  calls.foldl (fun s c => (s.writeMessage c.topic c.payload c.ts c.env).2) s

/-! ## Pipeline supervisor (MqttTelemetry.h / MqttTelemetry.cpp) -/

/-- TelemetryStatus enum. -/
inductive TelemetryStatus where
  | initializing : TelemetryStatus
  | wifiConnecting : TelemetryStatus
  | mqttConnecting : TelemetryStatus
  | running : TelemetryStatus
  | error : TelemetryStatus
  | bufferFull : TelemetryStatus
  | sdError : TelemetryStatus
deriving DecidableEq

/-- TelemetryStats counters (the sampled gauges uptime/freeHeap/
bufferUsagePercent are refreshed by updateStats and play no role in the
claims; the float gauge is omitted). -/
structure TelemetryStats where
  messagesReceived : Nat
  messagesStored : Nat
  messagesDropped : Nat
  validationErrors : Nat
  storageErrors : Nat
  mqttReconnects : Nat
deriving DecidableEq

/-- The MqttTelemetry supervisor state.  Pointer members are `Option`s /
presence flags; the configuration strings, the PubSubClient and the task
handles carry no verified behaviour beyond presence. -/
structure MqttTelemetry where
  buffer : CircularBuffer
  validator : Option SchemaValidator
  storage : Option StorageManager
  status : TelemetryStatus
  stats : TelemetryStats
  bufferMutex : Bool
  statsMutex : Bool
  mqttPresent : Bool
  tasksCreated : Bool
  initDone : Bool
  sdMounted : Bool

/-- One inbound broker delivery: the callback arguments plus the
deserializeJson oracle for the payload (used only when validation runs)
and the `millis()` reading at the push. -/
structure InMsg where
  topic : List Char
  payload : List Char
  now : Nat
  parsed : Option Json

/-- The record the buffer stores for an inbound delivery. -/
def recordOf (m : InMsg) : BufferedMessage :=
  mkMessage m.topic m.payload m.now

/-- The buffer-admission step of MqttTelemetry::handleMessage (the section
guarded by the buffer mutex, modelled as acquired): if full, removeOldest
and count the drop under the stats mutex, then push. -/
def enqueueMessage (st : MqttTelemetry) (m : InMsg) : MqttTelemetry :=
  let st1 :=
    if st.buffer.isFull then
      { st with
        buffer := st.buffer.removeOldest
        stats := { st.stats with messagesDropped := st.stats.messagesDropped + 1 } }
    else st
  { st1 with buffer := (st1.buffer.push m.topic m.payload m.now).2 }

/-- MqttTelemetry::handleMessage: count the receipt, (user callback —
external, no supervisor state change), validate when a validator exists
and is enabled (dropping the message and counting a validation error on
failure), then the buffer-admission step. -/
def MqttTelemetry.handleMessage (st : MqttTelemetry) (m : InMsg) : MqttTelemetry :=
  let str := { st with
    stats := { st.stats with messagesReceived := st.stats.messagesReceived + 1 } }
  match str.validator with
  | some v =>
    if v.enabled then
      if SchemaValidator.validateStr v m.topic m.parsed ≠ ValidationResult.ok then
        { str with
          stats := { str.stats with validationErrors := str.stats.validationErrors + 1 } }
      else enqueueMessage str m
    else enqueueMessage str m
  | none => enqueueMessage str m

/-- A sequence of inbound deliveries through handleMessage. -/
def runMessages (st : MqttTelemetry) (ms : List InMsg) : MqttTelemetry :=
  ms.foldl MqttTelemetry.handleMessage st

/-- "Validator disabled or absent" at the supervisor
(`validator && validator->isEnabled()` is false). -/
def validatorOff (st : MqttTelemetry) : Bool :=
  match st.validator with
  | none => true
  | some v => ! v.enabled

/-- One iteration of the drain worker MqttTelemetry::storageTask (both
mutex acquisitions modelled as succeeding): if the buffer is non-empty,
pop one record, then — only when the storage pointer is set AND the SD
card is mounted — write it and count exactly one of messagesStored /
storageErrors. -/
def storageTaskStep (st : MqttTelemetry) (env : WriteEnv) : MqttTelemetry :=
  if st.buffer.isEmpty then st
  else
    match st.buffer.pop with
    | (none, _) => st
    | (some msg, buf1) =>
      let st1 := { st with buffer := buf1 }
      match st1.storage, st1.sdMounted with
      | some sm, true =>
        let r := sm.writeMessage msg.topic msg.payload msg.timestamp env
        if r.1 then
          { st1 with
            storage := some r.2
            stats := { st1.stats with messagesStored := st1.stats.messagesStored + 1 } }
        else
          { st1 with
            storage := some r.2
            stats := { st1.stats with storageErrors := st1.stats.storageErrors + 1 } }
      | _, _ => st1

/-- External outcomes of one MqttTelemetry::begin call: mutex creation,
the WiFi association result, the SD mount result, the re-open of the SD
for the schema load, the schema file open and its deserializeJson result. -/
structure BeginEnv where
  mutexOk1 : Bool
  mutexOk2 : Bool
  wifiOk : Bool
  sdOk : Bool
  sdReopenOk : Bool
  schemaFileOk : Bool
  schemaParsed : Option Json

/-- MqttTelemetry::setupWiFi: status walks to wifiConnecting and, on an
association timeout, to error. -/
def setupWiFiM (st : MqttTelemetry) (env : BeginEnv) : MqttTelemetry :=
  let st1 := { st with status := TelemetryStatus.wifiConnecting }
  if env.wifiOk then st1 else { st1 with status := TelemetryStatus.error }

/-- MqttTelemetry::setupSD: mount result; on failure status becomes
sdError.  (At this point of begin the storage pointer is still null, so
the `storage->begin(sd)` branch inside setupSD does not run.) -/
def setupSDM (st : MqttTelemetry) (env : BeginEnv) : MqttTelemetry :=
  if env.sdOk then { st with sdMounted := true }
  else { st with status := TelemetryStatus.sdError, sdMounted := false }

/-- MqttTelemetry::begin: immediate true when already done; otherwise
mutexes, buffer (BUFFER_SIZE = 1000), validator, WiFi, SD, optional schema
load, storage manager allocation (its begin is never called here), MQTT
client setup and task creation, then the initDone flag and Running.
The null-checks after the `new` expressions are dead code in C++ (plain
`new` never yields null), so allocation is modelled as succeeding. -/
def MqttTelemetry.begin (st : MqttTelemetry) (schemaPath : Option (List Char))
    (env : BeginEnv) : Bool × MqttTelemetry :=
  if st.initDone then (true, st)
  else
    let s1 := { st with bufferMutex := env.mutexOk1, statsMutex := env.mutexOk2 }
    if env.mutexOk1 = false ∨ env.mutexOk2 = false then (false, s1)
    else
      let s2 := { s1 with buffer := freshBuffer 1000 }
      let s3 := { s2 with validator := some freshValidator }
      let s4 := setupWiFiM s3 env
      let s5 := setupSDM s4 env
      let s6 :=
        if schemaPath.isSome ∧ s5.sdMounted ∧ env.sdReopenOk then
          match s5.validator with
          | some v =>
            if env.schemaFileOk then
              { s5 with
                validator := some (v.loadSchemaFromJson env.schemaParsed).2 }
            else s5
          | none => s5
        else s5
      let s7 := { s6 with storage := some freshStorage }
      let s8 := { s7 with mqttPresent := true, tasksCreated := true }
      (true, { s8 with initDone := true, status := TelemetryStatus.running })

/-! ## Concrete states used by the witnesses and counterexamples -/

/-- A full one-slot buffer holding a single record. -/
def cbFull1 : CircularBuffer :=
  { arr := fun _ => default, head := 0, tail := 0, count := 1, maxCapacity := 1 }

/-- A sample inbound delivery. -/
def mW : InMsg := { topic := "s/a".data, payload := "1".data, now := 7, parsed := none }

/-- Stats block with all counters zero. -/
def zeroStats : TelemetryStats := ⟨0, 0, 0, 0, 0, 0⟩

/-- A running supervisor with a full one-slot buffer and no validator. -/
def stC4 : MqttTelemetry :=
  { buffer := cbFull1, validator := none, storage := none
    status := TelemetryStatus.running, stats := zeroStats
    bufferMutex := true, statsMutex := true, mqttPresent := true
    tasksCreated := true, initDone := true, sdMounted := true }

/-- A running supervisor whose buffer holds one record while the storage
pointer is null and the SD card is not mounted. -/
def stC3 : MqttTelemetry :=
  { buffer := cbFull1, validator := none, storage := none
    status := TelemetryStatus.running, stats := zeroStats
    bufferMutex := true, statsMutex := true, mqttPresent := true
    tasksCreated := true, initDone := true, sdMounted := false }

/-- A sample drain-iteration environment. -/
def envW : WriteEnv := { openOk := true, devWriteOk := true, nowMs := 0, wallSecs := 0 }

/-- A fresh supervisor with a capacity-2 buffer and no validator. -/
def stW1 : MqttTelemetry :=
  { buffer := freshBuffer 2, validator := none, storage := none
    status := TelemetryStatus.running, stats := zeroStats
    bufferMutex := true, statsMutex := true, mqttPresent := true
    tasksCreated := true, initDone := true, sdMounted := true }

/-- Three deliveries into a capacity-2 buffer. -/
def msgsW1 : List InMsg :=
  [ { topic := "a".data, payload := "p1".data, now := 1, parsed := none }
  , { topic := "b".data, payload := "p2".data, now := 2, parsed := none }
  , { topic := "c".data, payload := "p3".data, now := 3, parsed := none } ]

/-- A previously loaded one-field schema. -/
def fOld : FieldSchema :=
  { name := "v".data, type := "integer".data, required := true, autoFill := false
    minValue := none, maxValue := none, pattern := [] }

/-- Validator state after a successful earlier load. -/
def vPrev : SchemaValidator :=
  { fields := [fOld], fieldCount := 1, topicPattern := "t/#".data
    schemaName := "old".data, enabled := true, loaded := true }

/-- A schema blob that parses as JSON but fails loading: it carries a new
name and an empty `fields` array. -/
def docBad : Json :=
  Json.jobj [("name".data, Json.jstr "new".data), ("fields".data, Json.jarr [])]

/-- A required, non-auto-fill field descriptor. -/
def fReq : FieldSchema :=
  { name := "value".data, type := "float".data, required := true, autoFill := false
    minValue := none, maxValue := none, pattern := [] }

/-- A loaded, enabled validator with the single descriptor `fReq`. -/
def vC8 : SchemaValidator :=
  { fields := [fReq], fieldCount := 1, topicPattern := []
    schemaName := "s".data, enabled := true, loaded := true }

/-- A payload document with no keys at all. -/
def docEmpty : Json := Json.jobj []

/-- An initialized storage sink with an open, empty file and a small
rotation threshold. -/
def smW : StorageManager :=
  { sdPresent := true, filePresent := true, basePath := "/telemetry".data
    currentFileName := [], currentFileSize := 0, maxFileSize := 50
    initDone := true, stats := ⟨1, 0, 0, 0⟩, lastFlush := 0 }

/-- Two concrete writeMessage calls. -/
def callsW : List WriteCall :=
  [ { topic := "a".data, payload := "1".data, ts := 5, env := envW }
  , { topic := "a".data, payload := "2".data, ts := 6, env := envW } ]

/-- A supervisor that has already completed begin successfully. -/
def stBegun : MqttTelemetry :=
  { buffer := freshBuffer 1000, validator := some freshValidator
    storage := some freshStorage, status := TelemetryStatus.running
    stats := zeroStats, bufferMutex := true, statsMutex := true
    mqttPresent := true, tasksCreated := true, initDone := true, sdMounted := true }

/-- A begin environment where everything succeeds. -/
def envB : BeginEnv :=
  { mutexOk1 := true, mutexOk2 := true, wifiOk := true, sdOk := true
    sdReopenOk := true, schemaFileOk := true, schemaParsed := none }

/-- A running supervisor with one buffered record, a mounted SD card and
an initialized storage sink. -/
def stDrain : MqttTelemetry :=
  { buffer := cbFull1, validator := none, storage := some smW
    status := TelemetryStatus.running, stats := zeroStats
    bufferMutex := true, statsMutex := true, mqttPresent := true
    tasksCreated := true, initDone := true, sdMounted := true }

/-! ## Theorems -/

lemma addModNe (a n i j : Nat) (hij : i < j) (hj : j < n) :
    (a + i) % n ≠ (a + j) % n := by
  intro heq
  have hmod : Nat.ModEq n (a + i) (a + j) := heq
  have hdvd : n ∣ (a + j) - (a + i) := (Nat.modEq_iff_dvd' (by omega)).mp hmod
  have hsub : (a + j) - (a + i) = j - i := by omega
  rw [hsub] at hdvd
  have := Nat.le_of_dvd (by omega) hdvd
  omega

/-- Specification of push on a non-full well-formed buffer: it succeeds,
preserves well-formedness, and appends the (truncated) record to the
logical contents. -/
lemma push_not_full (cb : CircularBuffer) (t p : List Char) (now : Nat)
    (hwf : bufWF cb) (hnf : cb.count < cb.maxCapacity) :
    (cb.push t p now).1 = true ∧
    bufWF (cb.push t p now).2 ∧
    bufContents (cb.push t p now).2 = bufContents cb ++ [mkMessage t p now] ∧
    (cb.push t p now).2.count = cb.count + 1 ∧
    (cb.push t p now).2.maxCapacity = cb.maxCapacity ∧
    (cb.push t p now).2.tail = cb.tail := by
  obtain ⟨hcap, htail, hcnt, hhead⟩ := hwf
  have hful : cb.isFull = false := by
    simp only [CircularBuffer.isFull, decide_eq_false_iff_not]
    omega
  refine ⟨?_, ?_, ?_, ?_, ?_, ?_⟩ <;>
    simp only [CircularBuffer.push, hful, Bool.false_eq_true, if_false, bufContents, bufWF]
  · constructor
    · omega
    constructor
    · omega
    constructor
    · omega
    · rw [hhead, Nat.mod_add_mod]
      ring_nf
  · rw [List.range_succ, List.map_append]
    congr 1
    · apply List.map_congr_left
      intro i hi
      have hi' : i < cb.count := List.mem_range.mp hi
      have hne : (cb.tail + i) % cb.maxCapacity ≠ cb.head := by
        rw [hhead]
        exact addModNe cb.tail cb.maxCapacity i cb.count hi' (by omega)
      simp [hne]
    · have : (cb.tail + cb.count) % cb.maxCapacity = cb.head := hhead.symm
      simp [this]

/-- Specification of removeOldest on a non-empty well-formed buffer: it
preserves well-formedness and drops the oldest record from the logical
contents. -/
lemma removeOldest_spec (cb : CircularBuffer) (hwf : bufWF cb) (hne : 0 < cb.count) :
    bufWF cb.removeOldest ∧
    bufContents cb.removeOldest = (bufContents cb).drop 1 ∧
    cb.removeOldest.count = cb.count - 1 ∧
    cb.removeOldest.maxCapacity = cb.maxCapacity := by
  obtain ⟨hcap, htail, hcnt, hhead⟩ := hwf
  have hemp : cb.isEmpty = false := by
    simp only [CircularBuffer.isEmpty, decide_eq_false_iff_not]
    omega
  obtain ⟨k, hk⟩ : ∃ k, cb.count = k + 1 := ⟨cb.count - 1, by omega⟩
  refine ⟨?_, ?_, ?_, ?_⟩ <;>
    simp only [CircularBuffer.removeOldest, hemp, Bool.false_eq_true, if_false, bufContents, bufWF]
  · refine ⟨by omega, Nat.mod_lt _ (by omega), by omega, ?_⟩
    rw [hhead, Nat.mod_add_mod]
    congr 1
    omega
  · rw [hk]
    rw [show k + 1 - 1 = k from rfl]
    rw [List.range_succ_eq_map]
    simp only [List.map_cons, List.drop_succ_cons, List.drop_zero, List.map_map]
    apply List.map_congr_left
    intro i _
    have h2 : cb.tail + 1 + i = cb.tail + (i + 1) := by omega
    simp [Function.comp_apply, Nat.mod_add_mod, Nat.succ_eq_add_one, h2]

lemma handleMessage_validator (st : MqttTelemetry) (m : InMsg) :
    (st.handleMessage m).validator = st.validator := by
  unfold MqttTelemetry.handleMessage enqueueMessage
  cases hv : st.validator
  all_goals simp only [hv]
  all_goals (repeat' split) <;> rfl

lemma handleMessage_status (st : MqttTelemetry) (m : InMsg) :
    (st.handleMessage m).status = st.status := by
  unfold MqttTelemetry.handleMessage enqueueMessage
  cases hv : st.validator
  all_goals simp only [hv]
  all_goals (repeat' split) <;> rfl

lemma handleMessage_off_buffer (st : MqttTelemetry) (m : InMsg)
    (hoff : validatorOff st = true) :
    (st.handleMessage m).buffer =
      ((if st.buffer.isFull then st.buffer.removeOldest else st.buffer).push
        m.topic m.payload m.now).2 := by
  unfold MqttTelemetry.handleMessage enqueueMessage
  unfold validatorOff at hoff
  cases hv : st.validator with
  | none =>
    simp only [hv]
    split <;> rfl
  | some v =>
    rw [hv] at hoff
    simp only [Bool.not_eq_true'] at hoff
    simp only [hv, hoff, Bool.false_eq_true, if_false]
    split <;> rfl

lemma handleMessage_off_dropped (st : MqttTelemetry) (m : InMsg)
    (hoff : validatorOff st = true) :
    (st.handleMessage m).stats.messagesDropped =
      st.stats.messagesDropped + (if st.buffer.isFull then 1 else 0) := by
  unfold MqttTelemetry.handleMessage enqueueMessage
  unfold validatorOff at hoff
  cases hv : st.validator with
  | none =>
    simp only [hv]
    split <;> simp
  | some v =>
    rw [hv] at hoff
    simp only [Bool.not_eq_true'] at hoff
    simp only [hv, hoff, Bool.false_eq_true, if_false]
    split <;> simp

lemma runMessages_append (st : MqttTelemetry) (ms : List InMsg) (m : InMsg) :
    runMessages st (ms ++ [m]) = (runMessages st ms).handleMessage m := by
  simp [runMessages, List.foldl_append]

lemma run_spec (C : Nat) (hC : 1 ≤ C) (st : MqttTelemetry)
    (hbuf : st.buffer = freshBuffer C) (hoff : validatorOff st = true) :
    ∀ ms : List InMsg,
      bufWF (runMessages st ms).buffer ∧
      (runMessages st ms).buffer.maxCapacity = C ∧
      (runMessages st ms).buffer.count = min ms.length C ∧
      (runMessages st ms).validator = st.validator ∧
      bufContents (runMessages st ms).buffer = (ms.drop (ms.length - C)).map recordOf ∧
      (runMessages st ms).stats.messagesDropped =
        st.stats.messagesDropped + (ms.length - C) := by
  intro ms
  induction ms using List.reverseRecOn with
  | nil =>
    refine ⟨?_, ?_, ?_, ?_, ?_, ?_⟩ <;>
      simp [runMessages, hbuf, freshBuffer, bufWF, bufContents]
    omega
  | append_singleton ms m ih =>
    obtain ⟨ihwf, ihcap, ihcnt, ihval, ihcon, ihdrop⟩ := ih
    have hoff2 : validatorOff (runMessages st ms) = true := by
      unfold validatorOff at hoff ⊢
      rw [ihval]
      exact hoff
    have hstep := runMessages_append st ms m
    by_cases hful : C ≤ ms.length
    · -- the buffer is full: the oldest record is evicted, the drop counted
      have hcnt' : (runMessages st ms).buffer.count = C := by omega
      have hisf : (runMessages st ms).buffer.isFull = true := by
        simp only [CircularBuffer.isFull, decide_eq_true_eq]
        omega
      obtain ⟨rwf, rcon, rcnt, rcap⟩ :=
        removeOldest_spec (runMessages st ms).buffer ihwf (by omega)
      obtain ⟨-, pwf, pcon, pcnt, pcap, -⟩ :=
        push_not_full (runMessages st ms).buffer.removeOldest m.topic m.payload m.now
          rwf (by omega)
      have hbufeq := handleMessage_off_buffer (runMessages st ms) m hoff2
      simp only [hisf, if_true] at hbufeq
      have hdropeq := handleMessage_off_dropped (runMessages st ms) m hoff2
      simp only [hisf, if_true] at hdropeq
      refine ⟨?_, ?_, ?_, ?_, ?_, ?_⟩
      · rw [hstep, hbufeq]; exact pwf
      · rw [hstep, hbufeq, pcap, rcap, ihcap]
      · rw [hstep, hbufeq, pcnt, rcnt, hcnt']
        simp
        omega
      · rw [hstep, handleMessage_validator, ihval]
      · rw [hstep, hbufeq, pcon, rcon, ihcon]
        have hlen : (ms ++ [m]).length = ms.length + 1 := by simp
        rw [hlen]
        rw [List.drop_append_of_le_length (by omega)]
        rw [List.map_append]
        congr 1
        rw [← List.map_drop, List.drop_drop]
        congr 2
        omega
      · rw [hstep, hdropeq, ihdrop]
        simp
        omega
    · -- still room: plain push
      push_neg at hful
      have hisf : (runMessages st ms).buffer.isFull = false := by
        simp only [CircularBuffer.isFull, decide_eq_false_iff_not]
        omega
      obtain ⟨-, pwf, pcon, pcnt, pcap, -⟩ :=
        push_not_full (runMessages st ms).buffer m.topic m.payload m.now
          ihwf (by omega)
      have hbufeq := handleMessage_off_buffer (runMessages st ms) m hoff2
      simp only [hisf, Bool.false_eq_true, if_false] at hbufeq
      have hdropeq := handleMessage_off_dropped (runMessages st ms) m hoff2
      simp only [hisf, Bool.false_eq_true, if_false, Nat.add_zero] at hdropeq
      refine ⟨?_, ?_, ?_, ?_, ?_, ?_⟩
      · rw [hstep, hbufeq]; exact pwf
      · rw [hstep, hbufeq, pcap, ihcap]
      · rw [hstep, hbufeq, pcnt, ihcnt]
        simp
        omega
      · rw [hstep, handleMessage_validator, ihval]
      · rw [hstep, hbufeq, pcon, ihcon]
        have hlen : (ms ++ [m]).length = ms.length + 1 := by simp
        rw [hlen]
        have hz : ms.length + 1 - C = 0 := by omega
        have hz2 : ms.length - C = 0 := by omega
        rw [hz, hz2, List.drop_zero, List.drop_zero, List.map_append]
        rfl
      · rw [hstep, hdropeq, ihdrop]
        simp
        omega

/-- C1: with the validator disabled or absent and all mutexes acquired,
delivering K > C ≥ 1 messages through MqttTelemetry::handleMessage into a
fresh capacity-C ring buffer leaves exactly the last C messages, in
delivery order, as the buffer contents, and messages_dropped equals K - C:
on each full-buffer delivery the handler removes the oldest record and
counts the drop before pushing. -/
theorem claim1_overflow_keeps_last (st : MqttTelemetry) (C : Nat) (ms : List InMsg)
    (hC : 1 ≤ C) (hbuf : st.buffer = freshBuffer C) (hoff : validatorOff st = true)
    (hdrop : st.stats.messagesDropped = 0) (hK : C < ms.length) :
    bufContents (runMessages st ms).buffer = (ms.drop (ms.length - C)).map recordOf ∧
    (ms.drop (ms.length - C)).length = C ∧
    (runMessages st ms).stats.messagesDropped = ms.length - C := by
  obtain ⟨-, -, -, -, hcon, hdrop'⟩ := run_spec C hC st hbuf hoff ms
  refine ⟨hcon, ?_, ?_⟩
  · rw [List.length_drop]
    omega
  · rw [hdrop', hdrop]
    omega

/-- C1 witness: three deliveries into a fresh capacity-2 buffer keep the
last two records and count one drop. -/
theorem claim1_witness :
    bufContents (runMessages stW1 msgsW1).buffer =
      (msgsW1.drop (msgsW1.length - 2)).map recordOf ∧
    (msgsW1.drop (msgsW1.length - 2)).length = 2 ∧
    (runMessages stW1 msgsW1).stats.messagesDropped = msgsW1.length - 2 :=
  claim1_overflow_keeps_last stW1 2 msgsW1 (by decide) rfl rfl rfl (by decide)

/-- C9: CircularBuffer::push on a full buffer returns false and leaves the
buffer — head, tail, count and all stored records — entirely unchanged; it
does not evict. -/
theorem claim9_push_full_noop (cb : CircularBuffer) (topic payload : List Char)
    (now : Nat) (h : cb.isFull = true) :
    cb.push topic payload now = (false, cb) := by
  simp [CircularBuffer.push, h]

/-- C9 witness: pushing into a full one-slot buffer fails and changes
nothing. -/
theorem claim9_witness :
    cbFull1.isFull = true ∧ cbFull1.push "x".data "y".data 5 = (false, cbFull1) :=
  ⟨rfl, claim9_push_full_noop cbFull1 "x".data "y".data 5 rfl⟩

/-- C4 counterexample: in a Running supervisor with a full buffer, a
delivery that causes a drop (messages_dropped goes up by one) leaves the
status at Running — the claimed transition to BufferFull never happens
(no assignment of STATUS_BUFFER_FULL exists in the message path). -/
theorem claim4_counterexample :
    (stC4.handleMessage mW).stats.messagesDropped = stC4.stats.messagesDropped + 1 ∧
    (stC4.handleMessage mW).status = TelemetryStatus.running ∧
    TelemetryStatus.running ≠ TelemetryStatus.bufferFull := by
  refine ⟨?_, ?_, by decide⟩ <;> rfl

/-- C4 amended: a buffer-full drop does not change the supervisor status
at all — MqttTelemetry::handleMessage leaves `status` untouched on every
path, so the status stays Running across drops and subsequent successful
enqueues (STATUS_BUFFER_FULL is declared but never entered from the
message path). -/
theorem claim4_amended_status_unchanged (st : MqttTelemetry) (m : InMsg) :
    (st.handleMessage m).status = st.status :=
  handleMessage_status st m

/-- C10: calling begin on an already-initialized supervisor returns true
immediately and performs no re-initialization: the returned state is the
input state, unchanged in every component. -/
theorem claim10_begin_idempotent (st : MqttTelemetry) (schemaPath : Option (List Char))
    (env : BeginEnv) (h : st.initDone = true) :
    st.begin schemaPath env = (true, st) := by
  simp [MqttTelemetry.begin, h]

/-- C10 witness: begin on a supervisor that has already begun is the
identity, returning true. -/
theorem claim10_witness : stBegun.begin none envB = (true, stBegun) :=
  claim10_begin_idempotent stBegun none envB rfl

/-- C2 counterexample: on topic "a/" and pattern "a/#" the code returns
false although the claimed characterization — under which '#' matches the
empty remainder and a pattern ending in "/#" matches any extension of the
prefix — requires true.  The code's loop stops as soon as the topic is
exhausted and then demands an exhausted pattern, so '#' never gets to
match an empty remainder. -/
theorem claim2_counterexample :
    SchemaValidator.topicMatches "a/".data "a/#".data = false ∧
    claimTopicMatches "a/".data "a/#".data = true := by
  decide

/-- C2 amended: SchemaValidator::topicMatches implements the claimed
left-to-right scan with two deviations forced by the loop structure:
'#' matches any NON-EMPTY topic remainder regardless of whether it is the
last pattern token, and a topic exhausted before the pattern (even at a
'#') matches only if the pattern is exhausted too.  The code agrees with
this amended characterization on all inputs. -/
theorem claim2_amended_match (topic pattern : List Char) :
    SchemaValidator.topicMatches topic pattern = claimTopicMatchesAmended topic pattern := by
  induction pattern generalizing topic with
  | nil =>
    cases topic <;> simp [SchemaValidator.topicMatches, claimTopicMatchesAmended]
  | cons pc p ih =>
    cases topic with
    | nil => simp [SchemaValidator.topicMatches, claimTopicMatchesAmended]
    | cons tc t =>
      by_cases h1 : pc = '#'
      · simp [SchemaValidator.topicMatches, claimTopicMatchesAmended, h1]
      · by_cases h2 : pc = '+'
        · simp [SchemaValidator.topicMatches, claimTopicMatchesAmended, h1, h2, ih]
        · by_cases h3 : tc = pc
          · simp [SchemaValidator.topicMatches, claimTopicMatchesAmended, h1, h2, h3, ih]
          · have h4 : ¬ pc = tc := fun hx => h3 hx.symm
            simp [SchemaValidator.topicMatches, claimTopicMatchesAmended, h1, h2, h3, h4]

/-- C3 counterexample: a drain iteration on a supervisor whose storage
pointer is null (and SD unmounted) pops a message — the buffer count drops
from 1 to 0 — while BOTH messages_stored and storage_errors stay
unchanged, contradicting the claim that no popped message leaves both
counters unchanged, in particular when storage is absent or the card is
not mounted. -/
theorem claim3_counterexample :
    stC3.buffer.isEmpty = false ∧
    stC3.buffer.count = 1 ∧
    (storageTaskStep stC3 envW).buffer.count = 0 ∧
    (storageTaskStep stC3 envW).stats.messagesStored = stC3.stats.messagesStored ∧
    (storageTaskStep stC3 envW).stats.storageErrors = stC3.stats.storageErrors := by
  decide

/-- C3 amended: a drain iteration that pops a message updates exactly one
of messages_stored / storage_errors WHEN the storage pointer is set and
the SD card is mounted; when storage is absent or the card is unmounted
the popped message is discarded with neither counter updated. -/
theorem claim3_amended_drain_counters (st : MqttTelemetry) (env : WriteEnv)
    (h : st.buffer.isEmpty = false) :
    (storageTaskStep st env).buffer.count = st.buffer.count - 1 ∧
    (∀ sm, st.storage = some sm → st.sdMounted = true →
      (storageTaskStep st env).stats.messagesStored +
        (storageTaskStep st env).stats.storageErrors =
        st.stats.messagesStored + st.stats.storageErrors + 1) ∧
    (st.storage = none ∨ st.sdMounted = false →
      (storageTaskStep st env).stats.messagesStored = st.stats.messagesStored ∧
      (storageTaskStep st env).stats.storageErrors = st.stats.storageErrors) := by
  refine ⟨?_, ?_, ?_⟩
  · cases hs : st.storage <;> cases hm : st.sdMounted <;>
      simp only [storageTaskStep, CircularBuffer.pop, h, hs, hm, Bool.false_eq_true,
        if_false] <;>
      (repeat' split) <;> rfl
  · intro sm hs hm
    simp only [storageTaskStep, CircularBuffer.pop, h, hs, hm, Bool.false_eq_true, if_false]
    split <;> (simp; omega)
  · intro hcase
    rcases hcase with hs | hm
    · simp only [storageTaskStep, CircularBuffer.pop, h, hs, Bool.false_eq_true, if_false]
      cases hm : st.sdMounted <;> simp
    · cases hs : st.storage <;>
        simp only [storageTaskStep, CircularBuffer.pop, h, hs, hm, Bool.false_eq_true,
          if_false] <;> simp

/-- C3 witness for the amended claim: a drain iteration on a supervisor
with a mounted card and initialized sink, holding one buffered record. -/
theorem claim3_witness :
    (storageTaskStep stDrain envW).buffer.count = stDrain.buffer.count - 1 ∧
    (∀ sm, stDrain.storage = some sm → stDrain.sdMounted = true →
      (storageTaskStep stDrain envW).stats.messagesStored +
        (storageTaskStep stDrain envW).stats.storageErrors =
        stDrain.stats.messagesStored + stDrain.stats.storageErrors + 1) ∧
    (stDrain.storage = none ∨ stDrain.sdMounted = false →
      (storageTaskStep stDrain envW).stats.messagesStored = stDrain.stats.messagesStored ∧
      (storageTaskStep stDrain envW).stats.storageErrors = stDrain.stats.storageErrors) :=
  claim3_amended_drain_counters stDrain envW rfl

/-- C5 counterexample: loading a blob that parses as JSON but has an empty
`fields` array returns a typed failure, yet the previously loaded schema
state is NOT left unchanged: the schema name is overwritten from the new
blob and the field count is clobbered to 0 (both happen before the
emptiness check in SchemaValidator::parseSchema). -/
theorem claim5_counterexample :
    (vPrev.loadSchemaFromJson (some docBad)).1 = false ∧
    (vPrev.loadSchemaFromJson (some docBad)).2.schemaName ≠ vPrev.schemaName ∧
    (vPrev.loadSchemaFromJson (some docBad)).2.fieldCount ≠ vPrev.fieldCount := by
  decide

/-- C5 amended: on a JSON deserialization error the whole validator state
is unchanged; on a missing-`fields` failure the loaded flag, the field
table and the field count are unchanged but schema name and topic pattern
may already have been overwritten from the new blob; on an empty-`fields`
failure additionally the field count is clobbered to 0.  The loaded flag
and the field descriptor table survive every failure path. -/
theorem claim5_amended_load_failure (v : SchemaValidator) (parsed : Option Json) :
    (parsed = none → v.loadSchemaFromJson parsed = (false, v)) ∧
    (∀ doc, parsed = some doc → jget doc "fields".data = none →
      (v.loadSchemaFromJson parsed).1 = false ∧
      (v.loadSchemaFromJson parsed).2.loaded = v.loaded ∧
      (v.loadSchemaFromJson parsed).2.fields = v.fields ∧
      (v.loadSchemaFromJson parsed).2.fieldCount = v.fieldCount) ∧
    (∀ doc fv, parsed = some doc → jget doc "fields".data = some fv →
      jarrOfJson fv = [] →
      (v.loadSchemaFromJson parsed).1 = false ∧
      (v.loadSchemaFromJson parsed).2.loaded = v.loaded ∧
      (v.loadSchemaFromJson parsed).2.fields = v.fields ∧
      (v.loadSchemaFromJson parsed).2.fieldCount = 0) := by
  refine ⟨?_, ?_, ?_⟩
  · intro hn
    simp [SchemaValidator.loadSchemaFromJson, hn]
  · intro doc hp hf
    subst hp
    simp only [SchemaValidator.loadSchemaFromJson, SchemaValidator.parseSchema, hf]
    cases hn : jget doc "name".data <;> cases ht : jget doc "topic_pattern".data <;> simp
  · intro doc fv hp hf harr
    subst hp
    simp only [SchemaValidator.loadSchemaFromJson, SchemaValidator.parseSchema, hf, harr]
    cases hn : jget doc "name".data <;> cases ht : jget doc "topic_pattern".data <;> simp

/-- C5 witness for the amended claim, at the empty-`fields` blob: the load
fails while loaded flag and field table survive and the field count
becomes 0. -/
theorem claim5_witness :
    (vPrev.loadSchemaFromJson (some docBad)).1 = false ∧
    (vPrev.loadSchemaFromJson (some docBad)).2.loaded = vPrev.loaded ∧
    (vPrev.loadSchemaFromJson (some docBad)).2.fields = vPrev.fields ∧
    (vPrev.loadSchemaFromJson (some docBad)).2.fieldCount = 0 :=
  (claim5_amended_load_failure vPrev (some docBad)).2.2 docBad (Json.jarr [])
    rfl rfl rfl

/-- C6: the code violates the distinct-names requirement.  Two rotations
at distinct millisecond instants inside the same wall-clock second (here
5000 ms and 5700 ms, both seen by time(nullptr) as second 5) generate the
SAME file name — StorageManager::generateFileName depends only on the
wall-clock second and appends no counter — so the second rotation reuses
the existing data file instead of creating a fresh one. -/
theorem claim6_same_second_collision :
    (5000 : Nat) ≠ 5700 ∧
    rotationFileName 5000 = rotationFileName 5700 ∧
    rotationFileName 5000 = "data_19700101_000005.jsonl".data := by
  refine ⟨by decide, ?_, ?_⟩ <;> rfl

lemma rotate_size (s : StorageManager) (env : WriteEnv) :
    ((s.rotate env).1 = true → (s.rotate env).2.currentFileSize = 0) ∧
    ((s.rotate env).1 = false → (s.rotate env).2.currentFileSize = s.currentFileSize) ∧
    (s.rotate env).2.maxFileSize = s.maxFileSize := by
  unfold StorageManager.rotate StorageManager.createNewFile
  by_cases hfp : s.filePresent <;> by_cases hsd : s.sdPresent <;>
    by_cases hok : env.openOk <;> simp_all

lemma writeBody_size (s : StorageManager) (topic payload : List Char)
    (ts : Nat) (env : WriteEnv) :
    (s.writeBody topic payload ts env).2.currentFileSize ≤ s.currentFileSize + 2047 ∧
    (s.writeBody topic payload ts env).2.maxFileSize = s.maxFileSize := by
  unfold StorageManager.writeBody StorageManager.bumpFailed StorageManager.flushAt
  by_cases hlen : lineLen topic payload ts = 0 ∨ 2048 ≤ lineLen topic payload ts <;>
    by_cases hw : env.devWriteOk = false <;>
    by_cases hfl : 5000 < env.nowMs - s.lastFlush <;>
    by_cases hfp : s.filePresent
  all_goals simp_all
  all_goals (repeat' split)
  all_goals (try dsimp only)
  all_goals omega

lemma writeMessage_size_step (s : StorageManager) (topic payload : List Char)
    (ts : Nat) (env : WriteEnv)
    (hs : s.currentFileSize ≤ s.maxFileSize + 2047) :
    (s.writeMessage topic payload ts env).2.currentFileSize ≤
      (s.writeMessage topic payload ts env).2.maxFileSize + 2047 ∧
    (s.writeMessage topic payload ts env).2.maxFileSize = s.maxFileSize := by
  unfold StorageManager.writeMessage
  split
  · exact ⟨hs, rfl⟩
  · split
    · rename_i hinit hrot
      rcases hr : s.rotate env with ⟨ok, s1⟩
      obtain ⟨hT, hF, hM⟩ := rotate_size s env
      rw [hr] at hT hF hM
      dsimp only at hT hF hM
      cases ok
      · dsimp only
        unfold StorageManager.bumpFailed
        have hF2 := hF rfl
        exact ⟨by dsimp only; omega, by dsimp only; omega⟩
      · dsimp only
        obtain ⟨hb1, hb2⟩ := writeBody_size s1 topic payload ts env
        have h0 := hT rfl
        exact ⟨by omega, by omega⟩
    · rename_i hinit hrot
      obtain ⟨hb1, hb2⟩ := writeBody_size s topic payload ts env
      exact ⟨by omega, hb2⟩

/-- C7: over any sequence of writeMessage calls (with arbitrary rotation /
device-write outcomes), the recorded size of the current storage file
never exceeds max_file_size by more than one formatted line, i.e. by more
than 2047 bytes (the line buffer is 2048 bytes and a formatted line that
would fill it is rejected): a write finding
current_file_size >= max_file_size rotates first, and a rotation failure
fails that write without growing the file. -/
theorem claim7_rotation_bound (s : StorageManager) (calls : List WriteCall)
    (hs : s.currentFileSize ≤ s.maxFileSize + 2047) :
    (runWrites s calls).currentFileSize ≤ (runWrites s calls).maxFileSize + 2047 ∧
    (runWrites s calls).maxFileSize = s.maxFileSize := by
  induction calls generalizing s with
  | nil => exact ⟨hs, rfl⟩
  | cons c rest ih =>
    have hstep := writeMessage_size_step s c.topic c.payload c.ts c.env hs
    have hrun : runWrites s (c :: rest) =
        runWrites (s.writeMessage c.topic c.payload c.ts c.env).2 rest := rfl
    rw [hrun]
    obtain ⟨h1, h2⟩ := ih (s.writeMessage c.topic c.payload c.ts c.env).2 hstep.1
    exact ⟨h1, by rw [h2, hstep.2]⟩

/-- C7 witness: two writes against a fresh initialized sink with a 50-byte
threshold stay within threshold + 2047. -/
theorem claim7_witness :
    (runWrites smW callsW).currentFileSize ≤ (runWrites smW callsW).maxFileSize + 2047 ∧
    (runWrites smW callsW).maxFileSize = smW.maxFileSize :=
  claim7_rotation_bound smW callsW (by decide)

/-- C8: for a loaded, enabled validator whose (truncated) descriptor list
starts with `fs`, if the payload lacks `fs`'s key then validate returns
MissingField exactly when `fs` is required and not auto_fill; when the
field is auto_fill or not required, validation continues with the
remaining descriptors. -/
theorem claim8_required_autofill (v : SchemaValidator) (doc : Json)
    (fs : FieldSchema) (rest : List FieldSchema)
    (hen : v.enabled = true) (hld : v.loaded = true)
    (hfl : v.fields.take v.fieldCount = fs :: rest)
    (habs : jget doc fs.name = none) :
    (fs.required = true ∧ fs.autoFill = false →
      v.validateDoc doc = ValidationResult.errMissingField) ∧
    (fs.required = false ∨ fs.autoFill = true →
      v.validateDoc doc = SchemaValidator.validateFields doc rest) := by
  constructor
  · rintro ⟨hr, ha⟩
    simp [SchemaValidator.validateDoc, hen, hld, hfl, SchemaValidator.validateFields,
      habs, hr, ha]
  · intro hcase
    have hcond : ¬ (fs.required = true ∧ ¬ fs.autoFill = true) := by
      rcases hcase with h | h <;> simp [h]
    simp [SchemaValidator.validateDoc, hen, hld, hfl, SchemaValidator.validateFields,
      habs, hcond]
    intro hr ha
    simp_all

/-- C8 witness: a required non-auto_fill descriptor against an empty
payload document. -/
theorem claim8_witness :
    (fReq.required = true ∧ fReq.autoFill = false →
      vC8.validateDoc docEmpty = ValidationResult.errMissingField) ∧
    (fReq.required = false ∨ fReq.autoFill = true →
      vC8.validateDoc docEmpty = SchemaValidator.validateFields docEmpty []) :=
  claim8_required_autofill vC8 docEmpty fReq [] rfl rfl rfl rfl
